import Mathlib

/-!
Shallow embedding of `src/calculate_cep.py` (function `calculate_cep`),
the single source file of the CEP-calculator repository.

The Python function takes a file path, checks that the file exists,
reads it with `csv.DictReader`, checks that the header contains the
columns `x`, `y`, `z`, converts every row with `float(...)`, requires at
least two rows, and then computes
`1.5382 * sqrt(np.var(xs) + np.var(ys) + np.var(zs))`
with numpy's population variance (ddof = 0).

Modelling decisions:
* A CSV cell is modelled by the outcome of Python `float()` on its
  string: a finite rational (`Cell.num`), positive or negative infinity
  (`Cell.inf` / `Cell.ninf`, e.g. the strings "inf", "-Infinity",
  "1e999"), `Cell.nan` (the string "nan"), a parse failure
  (`Cell.bad s`, raising `ValueError`), or Python `None`
  (`Cell.pynone`, the `DictReader` restval for a short row, on which
  `float` raises `TypeError`).
* A file is modelled by the `DictReader` view: the optional header
  (`fieldnames` is `none` for a completely empty file) and the rows as
  association lists from column name to cell.
* The filesystem is an association list from path to file;
  `os.path.exists` succeeds exactly when the lookup does.
* Ideal real/rational arithmetic stands in for IEEE doubles.  When every
  loaded coordinate is finite the numeric pipeline is exact rational
  arithmetic followed by one real square root.  When some coordinate is
  non-finite the Python code returns some non-finite double; that value
  is abstracted as `CepResult.nonfinite` (IEEE inf/nan propagation is
  not modelled), but crucially the load still *succeeds* in that case.
-/

/-- Value of a Python float as produced by `float()`: a finite rational,
an infinity, or nan. -/
inductive PyVal where
  | fin (q : ℚ)
  | inf
  | ninf
  | nan
  deriving DecidableEq, Repr

/-- A CSV cell, abstracted by what Python `float()` does to its string
(see the module docstring). -/
inductive Cell where
  | num (q : ℚ)
  | inf
  | ninf
  | nan
  | bad (s : String)
  | pynone
  deriving DecidableEq, Repr

/-- Exceptions that can be raised inside the `try:` block of
`calculate_cep`: `ValueError` (from `float` on a non-numeric string, re-raised
as is), `KeyError` (missing required columns, re-raised as is), and
`TypeError` (from `float(None)` or from `col in None` when the file has no
header; wrapped by the `except Exception` clause). -/
inductive PyExc where
  | valueError (msg : String)
  | keyError (msg : String)
  | typeError (msg : String)
  deriving DecidableEq, Repr

/-- Errors that `calculate_cep` itself raises, as documented in its
docstring: `FileNotFoundError`, `KeyError`, `ValueError`. -/
inductive PyErr where
  | fileNotFound (msg : String)
  | keyError (msg : String)
  | valueError (msg : String)
  deriving DecidableEq, Repr

/-- Message of the `ValueError` raised by Python `float` on a
non-numeric string (quotes around the offending string omitted). -/
def floatErrMsg (s : String) : String :=
  "could not convert string to float: " ++ s

/-- Message of the `TypeError` raised by Python `float(None)`. -/
def noneTypeErrMsg : String :=
  "float() argument must be a string or a real number, not NoneType"

/-- Message of the `TypeError` raised by evaluating the membership test
`col in reader.fieldnames` when `fieldnames` is `None` (empty file). -/
def emptyFileMsg : String :=
  "argument of type NoneType is not iterable"

/-- Embedding of Python `float(cell)`. -/
def pyfloat : Cell → Except PyExc PyVal
  | .num q => .ok (.fin q)
  | .inf => .ok .inf
  | .ninf => .ok .ninf
  | .nan => .ok .nan
  | .bad s => .error (.valueError (floatErrMsg s))
  | .pynone => .error (.typeError noneTypeErrMsg)

/-- A loaded coordinate triple, the embedding of one element
`[float(row[x]), float(row[y]), float(row[z])]` of `coords`. -/
structure Coord where
  x : PyVal
  y : PyVal
  z : PyVal
  deriving DecidableEq, Repr

/-- Embedding of `row[col]` on a `DictReader` row: a missing key stands
for the restval `None` that `DictReader` inserts for short rows. -/
def getCell (row : List (String × Cell)) (col : String) : Cell :=
  match row.lookup col with
  | some c => c
  | none => .pynone

/-- Embedding of `[float(row[x]), float(row[y]), float(row[z])]`,
evaluated left to right, stopping at the first exception. -/
def parseRow (row : List (String × Cell)) : Except PyExc Coord :=
  match pyfloat (getCell row "x") with
  | .error e => .error e
  | .ok vx =>
    match pyfloat (getCell row "y") with
    | .error e => .error e
    | .ok vy =>
      match pyfloat (getCell row "z") with
      | .error e => .error e
      | .ok vz => .ok ⟨vx, vy, vz⟩

/-- Embedding of the `for row in reader: coords.append(...)` loop:
rows are converted in order and the first exception aborts the whole
load (nothing is ever dropped row-wise). -/
def parseRows : List (List (String × Cell)) → Except PyExc (List Coord)
  | [] => .ok []
  | r :: rs =>
    match parseRow r with
    | .error e => .error e
    | .ok c =>
      match parseRows rs with
      | .error e => .error e
      | .ok cs => .ok (c :: cs)

/-- The `DictReader` view of a CSV file: `fieldnames` is `none` exactly
when the file is completely empty (no header row), and each data row is
an association list from column name to cell. -/
structure CSVFile where
  fieldnames : Option (List String)
  rows : List (List (String × Cell))
  deriving DecidableEq, Repr

/-- The columns required by the header check in `calculate_cep`. -/
def requiredCols : List String := ["x", "y", "z"]

/-- Message of the `KeyError` raised on a missing required column
(inner quotes omitted). -/
def schemaErrMsg : String := "CSV file must have x, y, and z columns."

/-- Message of the `ValueError` raised when fewer than two data points
are present. -/
def insufficientMsg : String :=
  "At least two data points are required for calculation."

/-- Embedding of the body of the `try:` block: obtain `fieldnames`
(a `TypeError` surfaces from `col in None` when the file is empty),
check the required columns (raising `KeyError`), then parse all rows. -/
def readCoords (file : CSVFile) : Except PyExc (List Coord) :=
  match file.fieldnames with
  | none => .error (.typeError emptyFileMsg)
  | some fns =>
    if requiredCols.all (fun col => fns.contains col) then
      parseRows file.rows
    else
      .error (.keyError schemaErrMsg)

/-- Embedding of the `except` clauses: `ValueError` and `KeyError` are
re-raised unchanged, every other exception (here only `TypeError`) is
wrapped as `ValueError("Error reading CSV file: ...")`. -/
def handled : PyExc → PyErr
  | .valueError m => .valueError m
  | .keyError m => .keyError m
  | .typeError m => .valueError ("Error reading CSV file: " ++ m)

/-- A point with three finite coordinates, the payload of the numeric
pipeline once every coordinate is known to be finite. -/
structure Point3 where
  x : ℚ
  y : ℚ
  z : ℚ
  deriving DecidableEq, Repr

/-- Finite part of a Python float (junk value 0 on non-finite input;
only used under an all-finite guard). -/
def PyVal.finPart : PyVal → ℚ
  | .fin q => q
  | _ => 0

/-- Whether a Python float is finite. -/
def PyVal.isFin : PyVal → Bool
  | .fin _ => true
  | _ => false

/-- Whether all three coordinates of a loaded triple are finite. -/
def Coord.isFin (c : Coord) : Bool :=
  c.x.isFin && c.y.isFin && c.z.isFin

/-- The finite point underlying an all-finite coordinate triple. -/
def Coord.toPoint (c : Coord) : Point3 :=
  ⟨c.x.finPart, c.y.finPart, c.z.finPart⟩

/-- Embedding of `np.mean` on one axis: sum divided by length
(rational division, so `npMean [] = 0` by the `x / 0 = 0` convention;
the length-2 guard of `calculate_cep` keeps that case unreachable). -/
def npMean (l : List ℚ) : ℚ := l.sum / (l.length : ℚ)

/-- Embedding of `np.var` on one axis with the default `ddof = 0`:
the mean of the squared deviations from the mean (population divisor
`n`, not `n - 1`). -/
def npVar (l : List ℚ) : ℚ :=
  npMean (l.map fun v => (v - npMean l) ^ 2)

/-- The x coordinates of a point list (one column of `coords_np`). -/
def xsOf (pts : List Point3) : List ℚ := pts.map Point3.x

/-- The y coordinates of a point list. -/
def ysOf (pts : List Point3) : List ℚ := pts.map Point3.y

/-- The z coordinates of a point list. -/
def zsOf (pts : List Point3) : List ℚ := pts.map Point3.z

/-- Embedding of `np.sum(np.var(coords_np, axis=0))`: the sum of the
three per-axis population variances (the square of the spherical
standard deviation `sigma_s`). -/
def sigmaSqSum (pts : List Point3) : ℚ :=
  npVar (xsOf pts) + npVar (ysOf pts) + npVar (zsOf pts)

/-- Embedding of the numeric tail of `calculate_cep` on an all-finite
sample: `1.5382 * np.sqrt(np.sum(variance))`. -/
noncomputable def cepRadius (pts : List Point3) : ℝ :=
  1.5382 * Real.sqrt ((sigmaSqSum pts : ℚ) : ℝ)

/-- The value returned by `calculate_cep` on success: the real CEP
radius when every coordinate is finite, and an abstract non-finite
double (IEEE inf/nan propagation not modelled) otherwise. -/
inductive CepResult where
  | val (r : ℝ)
  | nonfinite

/-- Everything `calculate_cep` does up to (but excluding) the square
root, which keeps this part computable: existence check, guarded read,
length check, and the sum of per-axis variances as an exact rational
(`some` radicand when all coordinates are finite, `none` otherwise). -/
def cep_core (filepath : String) (fs : List (String × CSVFile)) :
    Except PyErr (Option ℚ) :=
  match fs.lookup filepath with
  | none => .error (.fileNotFound ("File not found at: " ++ filepath))
  | some file =>
    match readCoords file with
    | .error e => .error (handled e)
    | .ok coords =>
      if coords.length < 2 then
        .error (.valueError insufficientMsg)
      else if coords.all Coord.isFin then
        .ok (some (sigmaSqSum (coords.map Coord.toPoint)))
      else
        .ok none

/-- Interpretation of the core result as the returned float:
`1.5382 * sqrt(radicand)` when finite. -/
noncomputable def coreToResult : Option ℚ → CepResult
  | some s => .val (1.5382 * Real.sqrt ((s : ℚ) : ℝ))
  | none => .nonfinite

/-- Embedding of the whole Python function `calculate_cep`. -/
noncomputable def calculate_cep (filepath : String)
    (fs : List (String × CSVFile)) : Except PyErr CepResult :=
  (cep_core filepath fs).map coreToResult

/-- The per-axis centroid as the specification words it: the
component-wise arithmetic mean. -/
def specCentroid (l : List ℚ) : ℚ := l.sum / (l.length : ℚ)

/-- The per-axis variance as the specification words it: the mean of
squared deviations from the per-axis centroid with population divisor
`n` (not `n - 1`).  Written from the spec, to be compared with `npVar`,
which is written from the source. -/
def specAxisVar (l : List ℚ) : ℚ :=
  (l.map fun v => (v - specCentroid l) ^ 2).sum / (l.length : ℚ)

/-- Pointwise scaling of a sample by a rational factor `k`. -/
def scalePoint (k : ℚ) (p : Point3) : Point3 :=
  ⟨k * p.x, k * p.y, k * p.z⟩

/-- Whether Python `float()` fails on this cell (non-numeric string or
missing value). -/
def cellFails : Cell → Bool
  | .bad _ => true
  | .pynone => true
  | _ => false

/-! ### Helper lemmas about the numeric pipeline -/

/-- `npVar` coincides with the variance as the specification words it. -/
theorem npVar_eq_specAxisVar (l : List ℚ) : npVar l = specAxisVar l := by
  unfold npVar npMean specAxisVar specCentroid
  rw [List.length_map]

/-- The sum of per-axis variances coincides with the specification
formula for the squared spherical standard deviation. -/
theorem sigmaSqSum_eq_spec (pts : List Point3) :
    sigmaSqSum pts =
      specAxisVar (xsOf pts) + specAxisVar (ysOf pts) + specAxisVar (zsOf pts) := by
  unfold sigmaSqSum
  rw [npVar_eq_specAxisVar, npVar_eq_specAxisVar, npVar_eq_specAxisVar]

/-- The mean is invariant under permutation of the sample. -/
theorem npMean_perm {l l' : List ℚ} (h : l.Perm l') : npMean l = npMean l' := by
  unfold npMean
  rw [h.sum_eq, h.length_eq]

/-- The variance is invariant under permutation of the sample. -/
theorem npVar_perm {l l' : List ℚ} (h : l.Perm l') : npVar l = npVar l' := by
  unfold npVar
  simp only [npMean_perm h]
  exact npMean_perm (h.map _)

/-- The sum of per-axis variances is invariant under permutation of the
point list. -/
theorem sigmaSqSum_perm {pts pts' : List Point3} (h : pts.Perm pts') :
    sigmaSqSum pts = sigmaSqSum pts' := by
  unfold sigmaSqSum xsOf ysOf zsOf
  rw [npVar_perm (h.map Point3.x), npVar_perm (h.map Point3.y),
    npVar_perm (h.map Point3.z)]

/-- Multiplying every element of a list by a constant multiplies the sum. -/
theorem sum_map_mul (k : ℚ) : ∀ l : List ℚ, (l.map fun v => k * v).sum = k * l.sum
  | [] => by simp
  | a :: t => by simp [sum_map_mul k t, mul_add]

/-- The mean scales linearly. -/
theorem npMean_scale (k : ℚ) (l : List ℚ) :
    npMean (l.map fun v => k * v) = k * npMean l := by
  unfold npMean
  rw [sum_map_mul, List.length_map, mul_div_assoc]

/-- The variance scales quadratically. -/
theorem npVar_scale (k : ℚ) (l : List ℚ) :
    npVar (l.map fun v => k * v) = k ^ 2 * npVar l := by
  unfold npVar
  simp only [npMean_scale]
  have h1 : ((l.map fun v => k * v).map fun v => (v - k * npMean l) ^ 2)
      = (l.map fun v => (v - npMean l) ^ 2).map fun w => k ^ 2 * w := by
    rw [List.map_map, List.map_map]
    refine List.map_congr_left fun a _ => ?_
    simp only [Function.comp]
    ring
  rw [h1, npMean_scale]

/-- Mean of a constant sample. -/
theorem npMean_replicate (n : ℕ) (q : ℚ) (hn : n ≠ 0) :
    npMean (List.replicate n q) = q := by
  unfold npMean
  rw [List.sum_replicate, List.length_replicate, nsmul_eq_mul,
    mul_div_cancel_left₀ q (Nat.cast_ne_zero.mpr hn)]

/-- Variance of a constant sample vanishes. -/
theorem npVar_replicate (n : ℕ) (q : ℚ) (hn : n ≠ 0) :
    npVar (List.replicate n q) = 0 := by
  unfold npVar
  rw [npMean_replicate n q hn, List.map_replicate]
  simp [npMean]

/-! ### Claim theorems -/

/-- C6: for every sample set and every permutation of its rows, the
parametric estimator returns an identical result — the computed CEP does
not depend on the order of the points. -/
theorem C6_order_independence (pts pts' : List Point3) (h : pts.Perm pts') :
    cepRadius pts = cepRadius pts' := by
  unfold cepRadius
  rw [sigmaSqSum_perm h]

/-- Witness for C6 at a concrete two-point sample and its swap. -/
theorem C6_order_independence_witness :
    cepRadius [⟨1, 2, 3⟩, ⟨4, 5, 6⟩] = cepRadius [⟨4, 5, 6⟩, ⟨1, 2, 3⟩] :=
  C6_order_independence _ _ (by decide)

/-- C7: for every sample set of at least two points and every rational
factor `k`, scaling every coordinate of every point by `k` scales the
parametric estimator result by `|k|`. -/
theorem C7_scaling (pts : List Point3) (k : ℚ) (h : 2 ≤ pts.length) :
    cepRadius (pts.map (scalePoint k)) = |(k : ℝ)| * cepRadius pts := by
  unfold cepRadius
  have hx : xsOf (pts.map (scalePoint k)) = (xsOf pts).map fun v => k * v := by
    unfold xsOf scalePoint
    rw [List.map_map, List.map_map]
    rfl
  have hy : ysOf (pts.map (scalePoint k)) = (ysOf pts).map fun v => k * v := by
    unfold ysOf scalePoint
    rw [List.map_map, List.map_map]
    rfl
  have hz : zsOf (pts.map (scalePoint k)) = (zsOf pts).map fun v => k * v := by
    unfold zsOf scalePoint
    rw [List.map_map, List.map_map]
    rfl
  have hs : sigmaSqSum (pts.map (scalePoint k)) = k ^ 2 * sigmaSqSum pts := by
    unfold sigmaSqSum
    rw [hx, hy, hz, npVar_scale, npVar_scale, npVar_scale]
    ring
  rw [hs]
  push_cast
  rw [Real.sqrt_mul (by positivity), Real.sqrt_sq_eq_abs]
  ring

/-- Witness for C7 at a concrete two-point sample and factor `-3`. -/
theorem C7_scaling_witness :
    cepRadius (([⟨0, 0, 0⟩, ⟨2, 0, 0⟩] : List Point3).map (scalePoint (-3)))
      = |((-3 : ℚ) : ℝ)| * cepRadius [⟨0, 0, 0⟩, ⟨2, 0, 0⟩] :=
  C7_scaling [⟨0, 0, 0⟩, ⟨2, 0, 0⟩] (-3) (by decide)

/-- C9: for every `n ≥ 2` and every point `p`, the parametric estimator
applied to `n` copies of `p` returns exactly `0`. -/
theorem C9_identical_points (n : ℕ) (p : Point3) (h : 2 ≤ n) :
    cepRadius (List.replicate n p) = 0 := by
  have hn : n ≠ 0 := by omega
  have hx : xsOf (List.replicate n p) = List.replicate n p.x := by
    unfold xsOf
    rw [List.map_replicate]
  have hy : ysOf (List.replicate n p) = List.replicate n p.y := by
    unfold ysOf
    rw [List.map_replicate]
  have hz : zsOf (List.replicate n p) = List.replicate n p.z := by
    unfold zsOf
    rw [List.map_replicate]
  have hs : sigmaSqSum (List.replicate n p) = 0 := by
    unfold sigmaSqSum
    rw [hx, hy, hz, npVar_replicate _ _ hn, npVar_replicate _ _ hn,
      npVar_replicate _ _ hn]
    ring
  unfold cepRadius
  rw [hs]
  simp

/-- Witness for C9 at `n = 2` and a concrete point. -/
theorem C9_identical_points_witness :
    cepRadius (List.replicate 2 (⟨1, -2, 3⟩ : Point3)) = 0 :=
  C9_identical_points 2 ⟨1, -2, 3⟩ (by decide)

/-- C1: for every file that loads to `n ≥ 2` all-finite points, the
parametric estimator returns exactly `1.5382 * sqrt(Vx + Vy + Vz)`,
where each per-axis variance is the mean of squared deviations from the
per-axis centroid with population divisor `n` (`specAxisVar`, written
from the specification words, not `n - 1`). -/
theorem C1_parametric_formula (p : String) (fs : List (String × CSVFile))
    (file : CSVFile) (coords : List Coord)
    (hfile : fs.lookup p = some file)
    (hread : readCoords file = .ok coords)
    (hfin : coords.all Coord.isFin = true)
    (hlen : 2 ≤ coords.length) :
    calculate_cep p fs =
      .ok (.val (1.5382 * Real.sqrt
        ((specAxisVar (xsOf (coords.map Coord.toPoint))
          + specAxisVar (ysOf (coords.map Coord.toPoint))
          + specAxisVar (zsOf (coords.map Coord.toPoint)) : ℚ) : ℝ))) := by
  unfold calculate_cep cep_core
  rw [hfile]
  dsimp only
  rw [hread]
  dsimp only
  rw [if_neg (by omega), if_pos hfin]
  simp only [Except.map, coreToResult]
  rw [sigmaSqSum_eq_spec]

/-- Witness for C1 at a concrete two-point file. -/
theorem C1_parametric_formula_witness :
    calculate_cep "data.csv"
      [("data.csv", ⟨some ["x", "y", "z"],
        [[("x", Cell.num 0), ("y", Cell.num 0), ("z", Cell.num 0)],
         [("x", Cell.num 2), ("y", Cell.num 0), ("z", Cell.num 0)]]⟩)]
    = .ok (.val (1.5382 * Real.sqrt
        ((specAxisVar (xsOf (([⟨.fin 0, .fin 0, .fin 0⟩,
              ⟨.fin 2, .fin 0, .fin 0⟩] : List Coord).map Coord.toPoint))
          + specAxisVar (ysOf (([⟨.fin 0, .fin 0, .fin 0⟩,
              ⟨.fin 2, .fin 0, .fin 0⟩] : List Coord).map Coord.toPoint))
          + specAxisVar (zsOf (([⟨.fin 0, .fin 0, .fin 0⟩,
              ⟨.fin 2, .fin 0, .fin 0⟩] : List Coord).map Coord.toPoint)) : ℚ) : ℝ))) :=
  C1_parametric_formula "data.csv" _ _
    [⟨.fin 0, .fin 0, .fin 0⟩, ⟨.fin 2, .fin 0, .fin 0⟩]
    rfl rfl (by decide) (by decide)

/-- C3: whenever the file loads to fewer than two valid data points, the
estimator raises the insufficient-data `ValueError` and never returns a
numeric value; that error is branchably distinct from the
file-not-found and schema (`KeyError`) failure kinds. -/
theorem C3_insufficient_data (p : String) (fs : List (String × CSVFile))
    (file : CSVFile) (coords : List Coord)
    (hfile : fs.lookup p = some file)
    (hread : readCoords file = .ok coords)
    (hlen : coords.length < 2) :
    calculate_cep p fs = .error (.valueError insufficientMsg)
    ∧ (∀ res, calculate_cep p fs ≠ .ok res)
    ∧ (∀ m, PyErr.valueError insufficientMsg ≠ .fileNotFound m)
    ∧ (∀ m, PyErr.valueError insufficientMsg ≠ .keyError m) := by
  have hmain : calculate_cep p fs = .error (.valueError insufficientMsg) := by
    unfold calculate_cep cep_core
    rw [hfile]
    dsimp only
    rw [hread]
    dsimp only
    rw [if_pos hlen]
    rfl
  refine ⟨hmain, ?_, fun m => by simp, fun m => by simp⟩
  intro res hok
  rw [hmain] at hok
  exact absurd hok (by simp)

/-- Witness for C3 at a concrete one-row file. -/
theorem C3_insufficient_data_witness :
    calculate_cep "a.csv"
      [("a.csv", ⟨some ["x", "y", "z"],
        [[("x", Cell.num 1), ("y", Cell.num 1), ("z", Cell.num 1)]]⟩)]
      = .error (.valueError insufficientMsg)
    ∧ (∀ res, calculate_cep "a.csv"
        [("a.csv", ⟨some ["x", "y", "z"],
          [[("x", Cell.num 1), ("y", Cell.num 1), ("z", Cell.num 1)]]⟩)]
        ≠ .ok res)
    ∧ (∀ m, PyErr.valueError insufficientMsg ≠ .fileNotFound m)
    ∧ (∀ m, PyErr.valueError insufficientMsg ≠ .keyError m) :=
  C3_insufficient_data "a.csv" _ _ [⟨.fin 1, .fin 1, .fin 1⟩]
    rfl rfl (by decide)

/-- C4: whenever the header is present but lacks one of the exact
(case-sensitive) column names `x`, `y`, `z`, the loader raises the
schema `KeyError`, whatever the rows contain (so before any row is
parsed and with no numeric computation). -/
theorem C4_schema_invalid (p : String) (fs : List (String × CSVFile))
    (file : CSVFile) (fns : List String)
    (hfile : fs.lookup p = some file)
    (hfns : file.fieldnames = some fns)
    (hmiss : "x" ∉ fns ∨ "y" ∉ fns ∨ "z" ∉ fns) :
    calculate_cep p fs = .error (.keyError schemaErrMsg) := by
  have hall : (requiredCols.all fun col => fns.contains col) = false := by
    rcases hmiss with h | h | h <;> simp [requiredCols, List.contains, h]
  unfold calculate_cep cep_core readCoords
  rw [hfile]
  dsimp only
  rw [hfns]
  dsimp only
  rw [hall]
  rfl

/-- Witness for C4 at a concrete file whose header lacks `z` (it has a
differently-cased `Z`), with a row present. -/
theorem C4_schema_invalid_witness :
    calculate_cep "b.csv"
      [("b.csv", ⟨some ["x", "y", "Z"],
        [[("x", Cell.num 1), ("y", Cell.num 1), ("Z", Cell.num 1)]]⟩)]
      = .error (.keyError schemaErrMsg) :=
  C4_schema_invalid "b.csv" _ _ ["x", "y", "Z"] rfl rfl
    (Or.inr (Or.inr (by decide)))

/-- C5: a filepath naming no existing resource fails with
`FileNotFoundError`, a failure kind branchably distinct from the
`KeyError` and `ValueError` kinds used for malformed content (schema,
value, and insufficient-data failures). -/
theorem C5_resource_not_found (p : String) (fs : List (String × CSVFile))
    (h : fs.lookup p = none) :
    calculate_cep p fs = .error (.fileNotFound ("File not found at: " ++ p))
    ∧ (∀ m, PyErr.fileNotFound ("File not found at: " ++ p) ≠ .keyError m)
    ∧ (∀ m, PyErr.fileNotFound ("File not found at: " ++ p) ≠ .valueError m) := by
  refine ⟨?_, fun m => by simp, fun m => by simp⟩
  unfold calculate_cep cep_core
  rw [h]
  rfl

/-- Witness for C5 on an empty filesystem. -/
theorem C5_resource_not_found_witness :
    calculate_cep "missing.csv" []
      = .error (.fileNotFound ("File not found at: " ++ "missing.csv"))
    ∧ (∀ m, PyErr.fileNotFound ("File not found at: " ++ "missing.csv")
        ≠ .keyError m)
    ∧ (∀ m, PyErr.fileNotFound ("File not found at: " ++ "missing.csv")
        ≠ .valueError m) :=
  C5_resource_not_found "missing.csv" [] rfl

/-- C8: whenever the estimator returns a numeric value, that value is a
single non-negative real scalar. -/
theorem C8_nonneg (p : String) (fs : List (String × CSVFile)) (r : ℝ)
    (h : calculate_cep p fs = .ok (.val r)) : 0 ≤ r := by
  unfold calculate_cep at h
  cases hc : cep_core p fs with
  | error e =>
    rw [hc] at h
    simp [Except.map] at h
  | ok o =>
    rw [hc] at h
    simp only [Except.map, Except.ok.injEq] at h
    cases o with
    | none => simp [coreToResult] at h
    | some s =>
      simp only [coreToResult, CepResult.val.injEq] at h
      rw [← h]
      positivity

/-- Witness for C8 at a concrete two-point file (the radicand is left
as the unevaluated `sigmaSqSum` of the loaded points). -/
theorem C8_nonneg_witness :
    (0 : ℝ) ≤ 1.5382 * Real.sqrt
      ((sigmaSqSum (([⟨.fin 1, .fin 1, .fin 1⟩, ⟨.fin 1, .fin 1, .fin 1⟩] :
          List Coord).map Coord.toPoint) : ℚ) : ℝ) :=
  C8_nonneg "c.csv"
    [("c.csv", ⟨some ["x", "y", "z"],
      [[("x", Cell.num 1), ("y", Cell.num 1), ("z", Cell.num 1)],
       [("x", Cell.num 1), ("y", Cell.num 1), ("z", Cell.num 1)]]⟩)]
    _ rfl

/-- C10: a file that exists but is completely empty (no header row, so
`DictReader.fieldnames` is `None`) fails with the wrapped
"Error reading CSV file" `ValueError`, not with the `KeyError` used for
a present header lacking `x`, `y` or `z`. -/
theorem C10_empty_file (p : String) (fs : List (String × CSVFile))
    (file : CSVFile)
    (hfile : fs.lookup p = some file)
    (hempty : file.fieldnames = none) :
    calculate_cep p fs
      = .error (.valueError ("Error reading CSV file: " ++ emptyFileMsg))
    ∧ (∀ m, PyErr.valueError ("Error reading CSV file: " ++ emptyFileMsg)
        ≠ .keyError m) := by
  refine ⟨?_, fun m => by simp⟩
  unfold calculate_cep cep_core readCoords
  rw [hfile]
  dsimp only
  rw [hempty]
  rfl

/-- Witness for C10 at a concrete empty file. -/
theorem C10_empty_file_witness :
    calculate_cep "empty.csv" [("empty.csv", ⟨none, []⟩)]
      = .error (.valueError ("Error reading CSV file: " ++ emptyFileMsg))
    ∧ (∀ m, PyErr.valueError ("Error reading CSV file: " ++ emptyFileMsg)
        ≠ .keyError m) :=
  C10_empty_file "empty.csv" [("empty.csv", ⟨none, []⟩)] ⟨none, []⟩ rfl rfl

/-! ### Parse-failure lemmas for the value-validation claim -/

/-- Any exception raised by `pyfloat` is a `ValueError` or a
`TypeError`, never a `KeyError`. -/
theorem pyfloat_error_shape (c : Cell) (e : PyExc) (h : pyfloat c = .error e) :
    (∃ m, e = .valueError m) ∨ (∃ m, e = .typeError m) := by
  cases c with
  | num q => exact absurd h (by simp [pyfloat])
  | inf => exact absurd h (by simp [pyfloat])
  | ninf => exact absurd h (by simp [pyfloat])
  | nan => exact absurd h (by simp [pyfloat])
  | bad s =>
    simp only [pyfloat, Except.error.injEq] at h
    exact Or.inl ⟨_, h.symm⟩
  | pynone =>
    simp only [pyfloat, Except.error.injEq] at h
    exact Or.inr ⟨_, h.symm⟩

/-- Any exception raised while converting one row is a `ValueError` or
a `TypeError`. -/
theorem parseRow_error_shape (r : List (String × Cell)) (e : PyExc)
    (h : parseRow r = .error e) :
    (∃ m, e = .valueError m) ∨ (∃ m, e = .typeError m) := by
  unfold parseRow at h
  cases hx : pyfloat (getCell r "x") with
  | error e1 =>
    rw [hx] at h
    dsimp only at h
    injection h with h1
    subst h1
    exact pyfloat_error_shape _ _ hx
  | ok vx =>
    rw [hx] at h
    dsimp only at h
    cases hy : pyfloat (getCell r "y") with
    | error e1 =>
      rw [hy] at h
      dsimp only at h
      injection h with h1
      subst h1
      exact pyfloat_error_shape _ _ hy
    | ok vy =>
      rw [hy] at h
      dsimp only at h
      cases hz : pyfloat (getCell r "z") with
      | error e1 =>
        rw [hz] at h
        dsimp only at h
        injection h with h1
        subst h1
        exact pyfloat_error_shape _ _ hz
      | ok vz =>
        rw [hz] at h
        dsimp only at h
        exact absurd h (by simp)

/-- Any exception raised while converting the rows is a `ValueError` or
a `TypeError`. -/
theorem parseRows_error_shape : ∀ (rows : List (List (String × Cell)))
    (e : PyExc), parseRows rows = .error e →
    (∃ m, e = .valueError m) ∨ (∃ m, e = .typeError m)
  | [], e, h => by simp [parseRows] at h
  | r :: rs, e, h => by
    unfold parseRows at h
    cases hr : parseRow r with
    | error e1 =>
      rw [hr] at h
      dsimp only at h
      injection h with h1
      subst h1
      exact parseRow_error_shape _ _ hr
    | ok c =>
      rw [hr] at h
      dsimp only at h
      cases ht : parseRows rs with
      | error e2 =>
        rw [ht] at h
        dsimp only at h
        injection h with h1
        subst h1
        exact parseRows_error_shape rs _ ht
      | ok cs =>
        rw [ht] at h
        dsimp only at h
        exact absurd h (by simp)

/-- On success, every row of the file became exactly one loaded point:
no row is ever dropped. -/
theorem parseRows_length : ∀ (rows : List (List (String × Cell)))
    (coords : List Coord), parseRows rows = .ok coords →
    coords.length = rows.length
  | [], coords, h => by
    simp only [parseRows, Except.ok.injEq] at h
    rw [← h]
    rfl
  | r :: rs, coords, h => by
    unfold parseRows at h
    cases hr : parseRow r with
    | error e1 =>
      rw [hr] at h
      dsimp only at h
      exact absurd h (by simp)
    | ok c =>
      rw [hr] at h
      dsimp only at h
      cases ht : parseRows rs with
      | error e2 =>
        rw [ht] at h
        dsimp only at h
        exact absurd h (by simp)
      | ok cs =>
        rw [ht] at h
        dsimp only at h
        injection h with h1
        subst h1
        simp [parseRows_length rs cs ht]

/-- A cell on which `float()` fails makes `pyfloat` raise. -/
theorem pyfloat_error_of_cellFails (c : Cell) (h : cellFails c = true) :
    ∃ e, pyfloat c = .error e := by
  cases c with
  | num q => simp [cellFails] at h
  | inf => simp [cellFails] at h
  | ninf => simp [cellFails] at h
  | nan => simp [cellFails] at h
  | bad s => exact ⟨_, rfl⟩
  | pynone => exact ⟨_, rfl⟩

/-- If any of the three required fields of a row fails `float()`, the
whole row conversion raises. -/
theorem parseRow_error_of_cellFails (r : List (String × Cell))
    (h : ∃ col ∈ requiredCols, cellFails (getCell r col) = true) :
    ∃ e, parseRow r = .error e := by
  obtain ⟨col, hcol, hfail⟩ := h
  have hcol3 : col = "x" ∨ col = "y" ∨ col = "z" := by
    simpa [requiredCols] using hcol
  unfold parseRow
  cases hx : pyfloat (getCell r "x") with
  | error e => exact ⟨e, rfl⟩
  | ok vx =>
    cases hy : pyfloat (getCell r "y") with
    | error e => exact ⟨e, rfl⟩
    | ok vy =>
      cases hz : pyfloat (getCell r "z") with
      | error e => exact ⟨e, rfl⟩
      | ok vz =>
        exfalso
        rcases hcol3 with rfl | rfl | rfl
        · obtain ⟨e, he⟩ := pyfloat_error_of_cellFails _ hfail
          rw [hx] at he
          exact absurd he (by simp)
        · obtain ⟨e, he⟩ := pyfloat_error_of_cellFails _ hfail
          rw [hy] at he
          exact absurd he (by simp)
        · obtain ⟨e, he⟩ := pyfloat_error_of_cellFails _ hfail
          rw [hz] at he
          exact absurd he (by simp)

/-- If any row raises during conversion, the whole loop raises (the
load never silently drops the bad row). -/
theorem parseRows_error_of_mem : ∀ (rows : List (List (String × Cell))),
    (∃ r ∈ rows, ∃ e, parseRow r = .error e) →
    ∃ e, parseRows rows = .error e
  | [], h => by simp at h
  | r :: rs, h => by
    unfold parseRows
    cases hr : parseRow r with
    | error e => exact ⟨e, rfl⟩
    | ok c =>
      have htail : ∃ r2 ∈ rs, ∃ e, parseRow r2 = .error e := by
        obtain ⟨r0, hr0, e0, he0⟩ := h
        rcases List.mem_cons.mp hr0 with rfl | hmem
        · rw [hr] at he0
          exact absurd he0 (by simp)
        · exact ⟨r0, hmem, e0, he0⟩
      obtain ⟨e, he⟩ := parseRows_error_of_mem rs htail
      exact ⟨e, by rw [he]⟩

/-- A `ValueError` or `TypeError` surfaces from the `except` clauses as
a `ValueError`. -/
theorem handled_valueError (e : PyExc)
    (h : (∃ m, e = .valueError m) ∨ (∃ m, e = .typeError m)) :
    ∃ m, handled e = PyErr.valueError m := by
  rcases h with ⟨m, rfl⟩ | ⟨m, rfl⟩
  · exact ⟨m, rfl⟩
  · exact ⟨"Error reading CSV file: " ++ m, rfl⟩

/-- Counterexample to C2 as stated.  In this concrete file the `x` cell
of the first row is a string such as "inf", which does *not* parse as a
finite real number — yet the load succeeds (the result is `Except.ok`,
so no `ValueError` is raised) and the loaded point does not have three
finite coordinates.  Python `float("inf")` returns `inf` without
raising, and `calculate_cep` never checks finiteness. -/
theorem C2_counterexample :
    calculate_cep "inf.csv"
      [("inf.csv", ⟨some ["x", "y", "z"],
        [[("x", Cell.inf), ("y", Cell.num 0), ("z", Cell.num 0)],
         [("x", Cell.num 1), ("y", Cell.num 2), ("z", Cell.num 3)]]⟩)]
      = .ok CepResult.nonfinite := rfl

/-- C2 (amended): with a valid header, the load fails with a
`ValueError` whenever any required field of any row fails Python
`float()` (is non-numeric or missing); and whenever the function
returns successfully, every row of the file was loaded as a parsed
float triple — no partial sample with dropped rows is ever accepted.
(The original claim also demanded failure on non-finite parses such as
"inf"; the code accepts those — see the counterexample.) -/
theorem C2_value_invalid (p : String) (fs : List (String × CSVFile))
    (file : CSVFile) (fns : List String)
    (hfile : fs.lookup p = some file)
    (hfns : file.fieldnames = some fns)
    (hcols : (requiredCols.all fun col => fns.contains col) = true) :
    ((∃ r ∈ file.rows, ∃ col ∈ requiredCols,
        cellFails (getCell r col) = true) →
      ∃ m, calculate_cep p fs = .error (.valueError m))
    ∧ (∀ res, calculate_cep p fs = .ok res →
        ∃ coords, parseRows file.rows = .ok coords
          ∧ coords.length = file.rows.length) := by
  constructor
  · rintro ⟨r, hr, hcolfail⟩
    obtain ⟨e, he⟩ := parseRows_error_of_mem file.rows
      ⟨r, hr, parseRow_error_of_cellFails r hcolfail⟩
    obtain ⟨m, hm⟩ := handled_valueError e (parseRows_error_shape file.rows e he)
    refine ⟨m, ?_⟩
    unfold calculate_cep cep_core readCoords
    rw [hfile]
    dsimp only
    rw [hfns]
    dsimp only
    rw [if_pos hcols, he]
    dsimp only [Except.map]
    rw [hm]
  · intro res hres
    unfold calculate_cep cep_core readCoords at hres
    rw [hfile] at hres
    dsimp only at hres
    rw [hfns] at hres
    dsimp only at hres
    rw [if_pos hcols] at hres
    cases hpr : parseRows file.rows with
    | error e =>
      rw [hpr] at hres
      simp [Except.map] at hres
    | ok coords =>
      exact ⟨coords, rfl, parseRows_length file.rows coords hpr⟩

/-- Witness for the amended C2 at a concrete one-bad-row file. -/
theorem C2_value_invalid_witness :
    ((∃ r ∈ [[("x", Cell.bad "abc"), ("y", Cell.num 0), ("z", Cell.num 0)]],
        ∃ col ∈ requiredCols, cellFails (getCell r col) = true) →
      ∃ m, calculate_cep "w.csv"
          [("w.csv", ⟨some ["x", "y", "z"],
            [[("x", Cell.bad "abc"), ("y", Cell.num 0), ("z", Cell.num 0)]]⟩)]
        = .error (.valueError m))
    ∧ (∀ res, calculate_cep "w.csv"
          [("w.csv", ⟨some ["x", "y", "z"],
            [[("x", Cell.bad "abc"), ("y", Cell.num 0), ("z", Cell.num 0)]]⟩)]
        = .ok res →
        ∃ coords, parseRows
            [[("x", Cell.bad "abc"), ("y", Cell.num 0), ("z", Cell.num 0)]]
          = .ok coords
          ∧ coords.length =
            [[("x", Cell.bad "abc"), ("y", Cell.num 0), ("z", Cell.num 0)]].length) :=
  C2_value_invalid "w.csv"
    [("w.csv", ⟨some ["x", "y", "z"],
      [[("x", Cell.bad "abc"), ("y", Cell.num 0), ("z", Cell.num 0)]]⟩)]
    ⟨some ["x", "y", "z"],
      [[("x", Cell.bad "abc"), ("y", Cell.num 0), ("z", Cell.num 0)]]⟩
    ["x", "y", "z"] rfl rfl (by decide)
